import Mathlib

/-!
Verification of the MCP23008 I2C GPIO-expander driver (ep-oc-mcu).

The driver (src/devices/MCP23008/MCP23008.hpp and its implementation) is
shallowly embedded below: machine bytes are `Nat` values reduced mod 256,
the I2C bus is a pair of acknowledged transactions against an explicit
device state, and every fatal `error(...)` / `MBED_ASSERT` path is an
`Except.error` carrying the source's message string.
-/

/-- Narrowing to `uint8_t`: C assigns and passes 8-bit values mod 256. -/
def u8 (x : Nat) : Nat := x % 256

/- Register addresses, from the anonymous namespace of the implementation. -/

def MCP23008_ADDRESS : Nat := 0x40

def IODIR : Nat := 0x00

def IPOL : Nat := 0x01

def GPINTEN : Nat := 0x02

def DEFVAL : Nat := 0x03

def INTCON : Nat := 0x04

def IOCON : Nat := 0x05

def GPPU : Nat := 0x06

def INTF : Nat := 0x07

def INTCAP : Nat := 0x08

/-- Register address 0x09 (the GPIO register; renamed from the source's
`GPIO` constant only because of Lean naming constraints). -/
def GPIOReg : Nat := 0x09

def OLAT : Nat := 0x0A

/-- Modelled from the spec: the register file of the MCP23008 chip itself
(the external hardware the driver talks to).  Eleven named 8-bit registers;
`pins` is the physical level present on the chip's GP0..GP7 pads, which is
an environment input (for an output pin it normally follows the latch, but
under external load/shorting it need not — the spec's scenario section says
reads of the input-state register return "the live pin levels independent
of the latch value"). -/
structure Chip where
  iodir : Nat
  ipol : Nat
  gpinten : Nat
  defval : Nat
  intcon : Nat
  iocon : Nat
  gppu : Nat
  intf : Nat
  intcap : Nat
  olat : Nat
  pins : Nat
deriving Repr, DecidableEq

/-- An all-zero chip state (fresh power-on with all pads low), used as a
concrete base point by witnesses. -/
def chip0 : Chip :=
  ⟨0, 0, 0, 0, 0, 0, 0, 0, 0, 0, 0⟩

/-- Modelled from the spec: effect of a bus write of byte `v` to register
address `reg`.  Per the spec's data model, interrupt-flag (0x07),
interrupt-capture (0x08) and input-state (0x09) are read-only snapshots:
a bus write to the interrupt-status registers is ignored, and a write
addressed to the input-state register lands in the output latch (this is
what makes the spec's write-GPIO/read-OLAT round trip hold). -/
def writeReg (c : Chip) (reg v : Nat) : Chip :=
  let v := u8 v
  if reg = IODIR then { c with iodir := v }
  else if reg = IPOL then { c with ipol := v }
  else if reg = GPINTEN then { c with gpinten := v }
  else if reg = DEFVAL then { c with defval := v }
  else if reg = INTCON then { c with intcon := v }
  else if reg = IOCON then { c with iocon := v }
  else if reg = GPPU then { c with gppu := v }
  else if reg = GPIOReg then { c with olat := v }
  else if reg = OLAT then { c with olat := v }
  else c

/-- Modelled from the spec: a bus read of register address `reg` returns one
byte.  Reading the input-state register returns the live pad levels filtered
through the polarity-inversion register; reading the output latch returns
the last latched value. -/
def readReg (c : Chip) (reg : Nat) : Nat :=
  if reg = IODIR then u8 c.iodir
  else if reg = IPOL then u8 c.ipol
  else if reg = GPINTEN then u8 c.gpinten
  else if reg = DEFVAL then u8 c.defval
  else if reg = INTCON then u8 c.intcon
  else if reg = IOCON then u8 c.iocon
  else if reg = GPPU then u8 c.gppu
  else if reg = INTF then u8 c.intf
  else if reg = INTCAP then u8 c.intcap
  else if reg = GPIOReg then u8 (c.pins ^^^ c.ipol)
  else if reg = OLAT then u8 c.olat
  else 0

/-- One I2C bus transaction as issued by the driver: an addressed write of a
byte sequence, or an addressed read of a byte count. -/
inductive Tx where
  | wr (devAddr : Nat) (data : List Nat)
  | rd (devAddr : Nat) (len : Nat)
deriving Repr, DecidableEq

/-- The chip as seen on the bus: its register file plus the register address
pointer that the first byte of every write transaction selects. -/
structure DevState where
  chip : Chip
  ptr : Nat
deriving Repr, DecidableEq

/-- Device-side processing of an acknowledged write transaction: the first
byte selects the register address; a second byte, when present, is written
to that register.  (The driver only ever issues one- or two-byte writes.) -/
def devProcessWrite (s : DevState) (data : List Nat) : DevState :=
  match data with
  | [] => s
  | [reg] => { s with ptr := u8 reg }
  | [reg, v] => { chip := writeReg s.chip (u8 reg) v, ptr := u8 reg }
  | _ => s

/-- Device-side response to an acknowledged one-byte read transaction. -/
def devRead (s : DevState) : Nat :=
  readReg s.chip s.ptr

/-- Transport primitive `i2c.write(addr, data, len)`: returns 0 on
acknowledgment (in which case the device has processed the bytes), nonzero
on missing acknowledgment.  Whether a transaction is acknowledged is an
environment input, the oracle `ack`. -/
def i2cWrite (ack : Tx → Bool) (s : DevState) (devAddr : Nat) (data : List Nat) :
    Nat × DevState :=
  if ack (Tx.wr devAddr data) then (0, devProcessWrite s data) else (1, s)

/-- Transport primitive `i2c.read(addr, buf, 1)`: returns status, the byte
read, and the (unchanged) device state. -/
def i2cRead (ack : Tx → Bool) (s : DevState) (devAddr : Nat) :
    Nat × Nat × DevState :=
  if ack (Tx.rd devAddr 1) then (0, devRead s, s) else (1, 0, s)

/-- The environment in which every bus transaction is acknowledged (a wired,
powered, responding chip). -/
def allAck : Tx → Bool := fun _ => true

/-- `MCP23008::read_register`: under the mutex, a single-byte select-register
write followed by a one-byte read on the same device address `a`; calls the
fatal `error(...)` on a missing acknowledgment of either transaction.
Returns the byte received, the device state, and the transactions issued. -/
def read_register (ack : Tx → Bool) (a : Nat) (s : DevState) (reg : Nat) :
    Except String (Nat × DevState × List Tx) :=
  let reg := u8 reg
  match i2cWrite ack s a [reg] with
  | (r1, s1) =>
    if r1 ≠ 0 then .error "MCP23008::read_register: Missing ACK for write\n"
    else
      match i2cRead ack s1 a with
      | (r2, b, s2) =>
        if r2 ≠ 0 then .error "MCP23008:read_register: Missing ACK for read\n"
        else .ok (b, s2, [Tx.wr a [reg], Tx.rd a 1])

/-- `MCP23008::write_register`: one two-byte transaction (register address,
value); calls the fatal `error(...)` on a missing acknowledgment. -/
def write_register (ack : Tx → Bool) (a : Nat) (s : DevState) (reg v : Nat) :
    Except String (DevState × List Tx) :=
  let reg := u8 reg
  let v := u8 v
  match i2cWrite ack s a [reg, v] with
  | (r1, s1) =>
    if r1 ≠ 0 then .error "MCP23008::write_register: Missing ACK for write\n"
    else .ok (s1, [Tx.wr a [reg, v]])

/-- `MCP23008::set_input_pins`: read IODIR, OR in the mask, write back. -/
def set_input_pins (ack : Tx → Bool) (a : Nat) (s : DevState) (pins : Nat) :
    Except String (DevState × List Tx) :=
  let pins := u8 pins
  match read_register ack a s IODIR with
  | .error e => .error e
  | .ok (value, s1, t1) =>
    match write_register ack a s1 IODIR (value ||| pins) with
    | .error e => .error e
    | .ok (s2, t2) => .ok (s2, t1 ++ t2)

/-- `MCP23008::set_output_pins`: read IODIR, AND out the mask, write back. -/
def set_output_pins (ack : Tx → Bool) (a : Nat) (s : DevState) (pins : Nat) :
    Except String (DevState × List Tx) :=
  let pins := u8 pins
  match read_register ack a s IODIR with
  | .error e => .error e
  | .ok (value, s1, t1) =>
    match write_register ack a s1 IODIR (value &&& (pins ^^^ 255)) with
    | .error e => .error e
    | .ok (s2, t2) => .ok (s2, t1 ++ t2)

/-- `MCP23008::write_outputs`: writes the GPIO register (0x09) directly. -/
def write_outputs (ack : Tx → Bool) (a : Nat) (s : DevState) (values : Nat) :
    Except String (DevState × List Tx) :=
  write_register ack a s GPIOReg values

/-- `MCP23008::read_outputs`: reads the OLAT register (0x0A). -/
def read_outputs (ack : Tx → Bool) (a : Nat) (s : DevState) :
    Except String (Nat × DevState × List Tx) :=
  read_register ack a s OLAT

/-- `MCP23008::read_inputs`: reads the GPIO register (0x09). -/
def read_inputs (ack : Tx → Bool) (a : Nat) (s : DevState) :
    Except String (Nat × DevState × List Tx) :=
  read_register ack a s GPIOReg

/-- `MCP23008::set_pullups`: writes the GPPU register directly. -/
def set_pullups (ack : Tx → Bool) (a : Nat) (s : DevState) (values : Nat) :
    Except String (DevState × List Tx) :=
  write_register ack a s GPPU values

/-- `MCP23008::get_pullups`: reads the GPPU register. -/
def get_pullups (ack : Tx → Bool) (a : Nat) (s : DevState) :
    Except String (Nat × DevState × List Tx) :=
  read_register ack a s GPPU

/-- `MCP23008::interrupt_on_changes`: clear the INTCON bits for `pins`
(read-modify-write), then set the GPINTEN bits for `pins`
(read-modify-write); four transactions in total. -/
def interrupt_on_changes (ack : Tx → Bool) (a : Nat) (s : DevState) (pins : Nat) :
    Except String (DevState × List Tx) :=
  let pins := u8 pins
  match read_register ack a s INTCON with
  | .error e => .error e
  | .ok (value, s1, t1) =>
    match write_register ack a s1 INTCON (value &&& (pins ^^^ 255)) with
    | .error e => .error e
    | .ok (s2, t2) =>
      match read_register ack a s2 GPINTEN with
      | .error e => .error e
      | .ok (value2, s3, t3) =>
        match write_register ack a s3 GPINTEN (value2 ||| pins) with
        | .error e => .error e
        | .ok (s4, t4) => .ok (s4, t1 ++ t2 ++ t3 ++ t4)

/-- `MCP23008::disable_interrupts`: clear the GPINTEN bits for `pins`
(read-modify-write). -/
def disable_interrupts (ack : Tx → Bool) (a : Nat) (s : DevState) (pins : Nat) :
    Except String (DevState × List Tx) :=
  let pins := u8 pins
  match read_register ack a s GPINTEN with
  | .error e => .error e
  | .ok (value, s1, t1) =>
    match write_register ack a s1 GPINTEN (value &&& (pins ^^^ 255)) with
    | .error e => .error e
    | .ok (s2, t2) => .ok (s2, t1 ++ t2)

/-- The body of the `for (reg = IPOL; reg <= OLAT; reg++) write_register(reg, 0)`
loop of `MCP23008::reset`, over an explicit list of register addresses. -/
def resetLoop (ack : Tx → Bool) (a : Nat) (regs : List Nat) (s : DevState) :
    Except String (DevState × List Tx) :=
  match regs with
  | [] => .ok (s, [])
  | reg :: rest =>
    match write_register ack a s reg 0 with
    | .error e => .error e
    | .ok (s1, t1) =>
      match resetLoop ack a rest s1 with
      | .error e => .error e
      | .ok (s2, t2) => .ok (s2, t1 ++ t2)

/-- `MCP23008::reset`: write 0xFF to IODIR, then clear every register from
IPOL (0x01) through OLAT (0x0A), each in its own write transaction. -/
def reset (ack : Tx → Bool) (a : Nat) (s : DevState) :
    Except String (DevState × List Tx) :=
  match write_register ack a s IODIR 0xFF with
  | .error e => .error e
  | .ok (s1, t1) =>
    match resetLoop ack a [IPOL, GPINTEN, DEFVAL, INTCON, IOCON, GPPU,
        INTF, INTCAP, GPIOReg, OLAT] s1 with
    | .error e => .error e
    | .ok (s2, t2) => .ok (s2, t1 ++ t2)

/-- `MCP23008::Frequency`: the supported bus clock selections. -/
inductive Frequency where
  | Frequency_100KHz
  | Frequency_400KHz
  | Frequency_1700KHz
deriving Repr, DecidableEq

/-- Numeric value of a `Frequency` selection, in hertz. -/
def freqValue : Frequency → Nat
  | .Frequency_100KHz => 100000
  | .Frequency_400KHz => 400000
  | .Frequency_1700KHz => 1700000

/-- The `MCP23008` constructor: computes `i2c_address = 0x40 | (address << 1)`
(in the initializer list), calls the fatal `error(...)` if the strap value
exceeds 7, otherwise sets the bus frequency and runs the reset sequence.
Returns the computed device address, the device state after reset, and the
transactions issued.  The bus-frequency call has no observable effect in
this model beyond its argument. -/
def MCP23008mk (ack : Tx → Bool) (address : Nat) (freq : Frequency)
    (s : DevState) : Except String (Nat × DevState × List Tx) :=
  let address := u8 address
  let i2c_address := u8 (MCP23008_ADDRESS ||| (address <<< 1))
  let _ := freqValue freq
  if address > 7 then
    .error "MCP23008::MCP23008: address is out of range, must be <= 7\n"
  else
    match reset ack i2c_address s with
    | .error e => .error e
    | .ok (s1, t1) => .ok (i2c_address, s1, t1)

/-- `MCP23008::Pin`: the pin identifiers and their bit-mask values. -/
inductive Pin where
  | Pin_GP0
  | Pin_GP1
  | Pin_GP2
  | Pin_GP3
  | Pin_GP4
  | Pin_GP5
  | Pin_GP6
  | Pin_GP7
  | Pin_All
deriving Repr, DecidableEq

/-- The numeric value of a `Pin` enumerator (its bit mask). -/
def pinMask : Pin → Nat
  | .Pin_GP0 => 0x01
  | .Pin_GP1 => 0x02
  | .Pin_GP2 => 0x04
  | .Pin_GP3 => 0x08
  | .Pin_GP4 => 0x10
  | .Pin_GP5 => 0x20
  | .Pin_GP6 => 0x40
  | .Pin_GP7 => 0x80
  | .Pin_All => 0xFF

/-- The mbed `PinMode` values the driver distinguishes. -/
inductive PinMode where
  | PullNone
  | PullUp
  | PullDown
deriving Repr, DecidableEq

/-- `MCP23008::ExpandedIO::read` (the shared `internal_read`):
`read_inputs() & _pin`. -/
def internal_read (ack : Tx → Bool) (a : Nat) (s : DevState) (pin : Pin) :
    Except String (Nat × DevState × List Tx) :=
  match read_inputs ack a s with
  | .error e => .error e
  | .ok (v, s1, t1) => .ok (v &&& pinMask pin, s1, t1)

/-- `MCP23008::ExpandedIO::mode` (the shared `internal_mode`):
`MBED_ASSERT(pull != PullDown)`, then under the parent's mutex a
read-modify-write of the pull-up register: pull-none clears the pin's bit,
pull-up sets it. -/
def internal_mode (ack : Tx → Bool) (a : Nat) (s : DevState) (pin : Pin)
    (pull : PinMode) : Except String (DevState × List Tx) :=
  if pull = PinMode.PullDown then
    .error "MBED_ASSERT: pull != PullDown\n"
  else
    match get_pullups ack a s with
    | .error e => .error e
    | .ok (pullups, s1, t1) =>
      let pullups :=
        if pull = PinMode.PullNone then pullups &&& (pinMask pin ^^^ 255)
        else if pull = PinMode.PullUp then pullups ||| pinMask pin
        else pullups
      match set_pullups ack a s1 pullups with
      | .error e => .error e
      | .ok (s2, t2) => .ok (s2, t1 ++ t2)

/-- `MCP23008::ExpandedIO::write` (the shared `internal_write`): read the
output latch, set or clear the pin's bit according to `value`, write back
via `write_outputs`. -/
def internal_write (ack : Tx → Bool) (a : Nat) (s : DevState) (pin : Pin)
    (value : Int) : Except String (DevState × List Tx) :=
  match read_outputs ack a s with
  | .error e => .error e
  | .ok (outputs, s1, t1) =>
    let next := if value ≠ 0 then outputs ||| pinMask pin
                else outputs &&& (pinMask pin ^^^ 255)
    match write_outputs ack a s1 next with
    | .error e => .error e
    | .ok (s2, t2) => .ok (s2, t1 ++ t2)

/-- `MCP23008::ExpandedIO::output` (`internal_output`): delegate to
`set_output_pins` with the single-pin mask. -/
def internal_output (ack : Tx → Bool) (a : Nat) (s : DevState) (pin : Pin) :
    Except String (DevState × List Tx) :=
  set_output_pins ack a s (pinMask pin)

/-- `MCP23008::ExpandedIO::input` (`internal_input`): delegate to
`set_input_pins` with the single-pin mask. -/
def internal_input (ack : Tx → Bool) (a : Nat) (s : DevState) (pin : Pin) :
    Except String (DevState × List Tx) :=
  set_input_pins ack a s (pinMask pin)

/-- `MCP23008::ExpandedOutput::read`: forwards to the shared
`ExpandedIO::internal_read`, i.e. the `read_inputs` (GPIO-register) path. -/
def ExpandedOutput_read (ack : Tx → Bool) (a : Nat) (s : DevState) (pin : Pin) :
    Except String (Nat × DevState × List Tx) :=
  internal_read ack a s pin

/-- `MCP23008::ExpandedOutput::write`: forwards to the shared
`ExpandedIO::internal_write`. -/
def ExpandedOutput_write (ack : Tx → Bool) (a : Nat) (s : DevState) (pin : Pin)
    (value : Int) : Except String (DevState × List Tx) :=
  internal_write ack a s pin value

/-- Following the spec's words, for comparison with the code: an Output
handle's read "returns last commanded value, via the output-latch path, not
live pin state", i.e. it would read OLAT and mask with the pin bit. -/
def ExpandedOutput_read_specModel (ack : Tx → Bool) (a : Nat) (s : DevState)
    (pin : Pin) : Except String (Nat × DevState × List Tx) :=
  match read_outputs ack a s with
  | .error e => .error e
  | .ok (v, s1, t1) => .ok (v &&& pinMask pin, s1, t1)

/-!
Interleaving model for the concurrency claim.  The atomic units are fixed by
the source's locking: one `read_register` call is atomic (its two bus
transactions are bracketed by `mutex.lock()`/`unlock()`); one
`write_register` call is atomic (a single bus transaction, serialized by the
bus itself); and the whole body of `ExpandedIO::mode` is atomic (its
`get_pullups`/`set_pullups` read-modify-write is bracketed by
`_parent.mutex.lock()`/`unlock()`).  A thread's local variable `value`
(`uint8_t value = read_register(...)`) is modelled per thread.
-/

/-- One atomic step of a thread (`tid` distinguishes the two threads). -/
inductive StepA where
  | rmwRead (tid : Bool) (reg : Nat)
  | rmwWriteOr (tid : Bool) (reg mask : Nat)
  | rmwWriteAndNot (tid : Bool) (reg mask : Nat)
  | modeRMW (tid : Bool) (pin : Pin) (pull : PinMode)
deriving Repr, DecidableEq

/-- The lock-guarded body of `ExpandedIO::mode` as a single chip
transformation (see `internal_mode`). -/
def execMode (c : Chip) (pin : Pin) (pull : PinMode) : Chip :=
  let pullups := readReg c GPPU
  let pullups :=
    if pull = PinMode.PullNone then pullups &&& (pinMask pin ^^^ 255)
    else if pull = PinMode.PullUp then pullups ||| pinMask pin
    else pullups
  writeReg c GPPU pullups

/-- Shared-memory state of the interleaving model: the chip, thread `true`'s
local `value`, thread `false`'s local `value`. -/
def execStep (st : Chip × Nat × Nat) (step : StepA) : Chip × Nat × Nat :=
  match step with
  | .rmwRead tid reg =>
    if tid then (st.1, readReg st.1 (u8 reg), st.2.2)
    else (st.1, st.2.1, readReg st.1 (u8 reg))
  | .rmwWriteOr tid reg mask =>
    let v := (if tid then st.2.1 else st.2.2) ||| u8 mask
    (writeReg st.1 (u8 reg) v, st.2.1, st.2.2)
  | .rmwWriteAndNot tid reg mask =>
    let v := (if tid then st.2.1 else st.2.2) &&& (u8 mask ^^^ 255)
    (writeReg st.1 (u8 reg) v, st.2.1, st.2.2)
  | .modeRMW _ pin pull => (execMode st.1 pin pull, st.2.1, st.2.2)

/-- Run a sequence of atomic steps. -/
def runSteps (l : List StepA) (st : Chip × Nat × Nat) : Chip × Nat × Nat :=
  l.foldl execStep st

/-- `set_input_pins(pins)` by thread `tid`, decomposed into its two atomic
units: the lock-guarded `read_register(IODIR)` and the single-transaction
`write_register(IODIR, value | pins)`. -/
def threadSetInputPins (tid : Bool) (pins : Nat) : List StepA :=
  [StepA.rmwRead tid IODIR, StepA.rmwWriteOr tid IODIR pins]

/-- `set_output_pins(pins)` by thread `tid`, decomposed into its two atomic
units. -/
def threadSetOutputPins (tid : Bool) (pins : Nat) : List StepA :=
  [StepA.rmwRead tid IODIR, StepA.rmwWriteAndNot tid IODIR pins]

/-- `mode(pull)` on pin `pin` by thread `tid`: a single atomic unit, because
the source holds the parent's mutex across the whole read-modify-write. -/
def threadMode (tid : Bool) (pin : Pin) (pull : PinMode) : List StepA :=
  [StepA.modeRMW tid pin pull]

/-- All interleavings of two sequences of atomic steps (fuelled recursion;
`merges` below always supplies enough fuel). -/
def mergesF : Nat → List StepA → List StepA → List (List StepA)
  | _, [], ys => [ys]
  | _, x :: xs, [] => [x :: xs]
  | 0, _ :: _, _ :: _ => []
  | n + 1, x :: xs, y :: ys =>
    (mergesF n xs (y :: ys)).map (fun l => x :: l) ++
      (mergesF n (x :: xs) ys).map (fun l => y :: l)

/-- All interleavings of two sequences of atomic steps. -/
def merges (xs ys : List StepA) : List (List StepA) :=
  mergesF (xs.length + ys.length) xs ys

/-!
Bit-level helper lemmas, used to settle the read-modify-write claims.
-/

theorem u8_testBit (x i : Nat) :
    (u8 x).testBit i = (decide (i < 8) && x.testBit i) := by
  show (x % 256).testBit i = (decide (i < 8) && x.testBit i)
  rw [show (256 : Nat) = 2 ^ 8 from by norm_num]
  exact Nat.testBit_mod_two_pow x 8 i

theorem testBit_255 (i : Nat) :
    (255 : Nat).testBit i = decide (i < 8) := by
  rw [show (255 : Nat) = 2 ^ 8 - 1 from by norm_num]
  exact Nat.testBit_two_pow_sub_one 8 i

theorem u8_u8 (x : Nat) : u8 (u8 x) = u8 x := by
  unfold u8; omega

theorem mod256_mod256 (x : Nat) : x % 256 % 256 = x % 256 := by omega

theorem u8_lt (x : Nat) : u8 x < 256 := by
  unfold u8; omega

theorem u8_eq_of_lt {x : Nat} (h : x < 256) : u8 x = x := Nat.mod_eq_of_lt h

theorem pinMask_lt (p : Pin) : pinMask p < 256 := by
  cases p <;> simp [pinMask]

/-- Cleanup: a byte AND-masked value is already a byte. -/
theorem mod256_and {x m : Nat} (hm : m < 256) : (x &&& m) % 256 = x &&& m :=
  Nat.mod_eq_of_lt (Nat.and_lt_two_pow x (show m < 2 ^ 8 by omega))

/-- Cleanup: the OR of two bytes is a byte. -/
theorem mod256_or {x y : Nat} (hx : x < 256) (hy : y < 256) :
    (x ||| y) % 256 = x ||| y :=
  Nat.mod_eq_of_lt (Nat.or_lt_two_pow (show x < 2 ^ 8 by omega) (show y < 2 ^ 8 by omega))

/-- Cleanup: the XOR of two bytes is a byte. -/
theorem xor255_lt {m : Nat} (hm : m < 256) : m ^^^ 255 < 256 :=
  Nat.xor_lt_two_pow (show m < 2 ^ 8 by omega) (by norm_num)

theorem testBit_ge_eight {a i : Nat} (ha : a < 256) (h : 8 ≤ i) :
    a.testBit i = false :=
  Nat.testBit_lt_two_pow
    (lt_of_lt_of_le ha (le_trans (by norm_num) (Nat.pow_le_pow_right (by norm_num) h)))

/-- Clearing two masks in turn clears their union. -/
theorem and_not_and_not_and_or (v a b : Nat) (ha : a < 256) (hb : b < 256) :
    ((v &&& (a ^^^ 255)) &&& (b ^^^ 255)) &&& (a ||| b) = 0 := by
  apply Nat.eq_of_testBit_eq
  intro i
  simp only [Nat.testBit_and, Nat.testBit_or, Nat.testBit_xor, testBit_255,
    Nat.zero_testBit]
  rcases Nat.lt_or_ge i 8 with h | h
  · simp only [decide_eq_true h]
    cases v.testBit i <;> cases a.testBit i <;> cases b.testBit i <;> rfl
  · simp [testBit_ge_eight ha h, testBit_ge_eight hb h]

/-- Setting a mask by OR makes those bits read back as the mask. -/
theorem or_and_self (x m : Nat) : (x ||| m) &&& m = m := by
  apply Nat.eq_of_testBit_eq
  intro i
  simp only [Nat.testBit_and, Nat.testBit_or]
  cases x.testBit i <;> cases m.testBit i <;> rfl

/-- Clearing a byte mask leaves nothing of that mask set. -/
theorem and_not_and_self (y p : Nat) (hp : p < 256) :
    (y &&& (p ^^^ 255)) &&& p = 0 := by
  apply Nat.eq_of_testBit_eq
  intro i
  simp only [Nat.testBit_and, Nat.testBit_xor, testBit_255, Nat.zero_testBit]
  rcases Nat.lt_or_ge i 8 with h | h
  · simp only [decide_eq_true h]
    cases y.testBit i <;> cases p.testBit i <;> rfl
  · simp [testBit_ge_eight hp h]

/-- Setting then clearing a byte mask restores the bits outside the mask. -/
theorem or_and_not_and_not (g p : Nat) (hp : p < 256) :
    ((g ||| p) &&& (p ^^^ 255)) &&& (p ^^^ 255) = g &&& (p ^^^ 255) := by
  apply Nat.eq_of_testBit_eq
  intro i
  simp only [Nat.testBit_and, Nat.testBit_or, Nat.testBit_xor, testBit_255]
  rcases Nat.lt_or_ge i 8 with h | h
  · simp only [decide_eq_true h]
    cases g.testBit i <;> cases p.testBit i <;> rfl
  · simp [testBit_ge_eight hp h]

/-- Re-masking is idempotent. -/
theorem and_and_self (x m : Nat) : (x &&& m) &&& m = x &&& m := by
  rw [Nat.and_assoc, Nat.and_self]

/-- Setting a byte mask leaves the bits outside the mask unchanged. -/
theorem or_and_not (g m : Nat) (hm : m < 256) :
    (g ||| m) &&& (m ^^^ 255) = g &&& (m ^^^ 255) := by
  apply Nat.eq_of_testBit_eq
  intro i
  simp only [Nat.testBit_and, Nat.testBit_or, Nat.testBit_xor, testBit_255]
  rcases Nat.lt_or_ge i 8 with h | h
  · simp only [decide_eq_true h]
    cases g.testBit i <;> cases m.testBit i <;> rfl
  · simp [testBit_ge_eight hm h]

/-- Evaluation of `read_register` when both transactions are acknowledged. -/
theorem read_register_ok (ack : Tx → Bool) (a reg : Nat) (s : DevState)
    (h1 : ack (Tx.wr a [u8 reg]) = true) (h2 : ack (Tx.rd a 1) = true) :
    read_register ack a s reg =
      .ok (readReg s.chip (u8 reg), { s with ptr := u8 reg },
        [Tx.wr a [u8 reg], Tx.rd a 1]) := by
  simp [read_register, i2cWrite, i2cRead, h1, h2, devRead, devProcessWrite, u8_u8]

/-- Evaluation of `write_register` when the transaction is acknowledged. -/
theorem write_register_ok (ack : Tx → Bool) (a reg v : Nat) (s : DevState)
    (h1 : ack (Tx.wr a [u8 reg, u8 v]) = true) :
    write_register ack a s reg v =
      .ok (⟨writeReg s.chip (u8 reg) (u8 v), u8 reg⟩, [Tx.wr a [u8 reg, u8 v]]) := by
  simp [write_register, i2cWrite, h1, devProcessWrite, u8_u8]

/-- Evaluation of `set_input_pins` on an acknowledging bus. -/
theorem set_input_pins_allAck (a p : Nat) (s : DevState) :
    set_input_pins allAck a s p =
      .ok (⟨{ s.chip with iodir := s.chip.iodir % 256 ||| p % 256 }, 0⟩,
        [Tx.wr a [0], Tx.rd a 1,
         Tx.wr a [0, s.chip.iodir % 256 ||| p % 256]]) := by
  rw [set_input_pins, read_register_ok allAck a IODIR s rfl rfl]
  simp [write_register_ok, allAck, readReg, writeReg, IODIR, IPOL, GPINTEN, DEFVAL,
    INTCON, IOCON, GPPU, INTF, INTCAP, GPIOReg, OLAT, u8, mod256_mod256,
    mod256_or (Nat.mod_lt _ (by norm_num)) (Nat.mod_lt _ (by norm_num))]

/-- Evaluation of `set_output_pins` on an acknowledging bus. -/
theorem set_output_pins_allAck (a p : Nat) (s : DevState) :
    set_output_pins allAck a s p =
      .ok (⟨{ s.chip with iodir := s.chip.iodir % 256 &&& (p % 256 ^^^ 255) }, 0⟩,
        [Tx.wr a [0], Tx.rd a 1,
         Tx.wr a [0, s.chip.iodir % 256 &&& (p % 256 ^^^ 255)]]) := by
  rw [set_output_pins, read_register_ok allAck a IODIR s rfl rfl]
  simp [write_register_ok, allAck, readReg, writeReg, IODIR, IPOL, GPINTEN, DEFVAL,
    INTCON, IOCON, GPPU, INTF, INTCAP, GPIOReg, OLAT, u8, mod256_mod256,
    mod256_and (xor255_lt (Nat.mod_lt _ (by norm_num)))]

/-- Evaluation of `interrupt_on_changes` on an acknowledging bus. -/
theorem interrupt_on_changes_allAck (a p : Nat) (s : DevState) :
    interrupt_on_changes allAck a s p =
      .ok (⟨{ s.chip with
              intcon := s.chip.intcon % 256 &&& (p % 256 ^^^ 255),
              gpinten := s.chip.gpinten % 256 ||| p % 256 }, 2⟩,
        [Tx.wr a [4], Tx.rd a 1,
         Tx.wr a [4, s.chip.intcon % 256 &&& (p % 256 ^^^ 255)],
         Tx.wr a [2], Tx.rd a 1,
         Tx.wr a [2, s.chip.gpinten % 256 ||| p % 256]]) := by
  rw [interrupt_on_changes, read_register_ok allAck a INTCON s rfl rfl]
  simp only [write_register_ok allAck a INTCON _ _ rfl]
  rw [read_register_ok allAck a GPINTEN _ rfl rfl]
  simp [write_register_ok, allAck, readReg, writeReg, IODIR, IPOL, GPINTEN, DEFVAL,
    INTCON, IOCON, GPPU, INTF, INTCAP, GPIOReg, OLAT, u8, mod256_mod256,
    mod256_and (xor255_lt (Nat.mod_lt _ (by norm_num))),
    mod256_or (Nat.mod_lt _ (by norm_num)) (Nat.mod_lt _ (by norm_num))]

/-- Evaluation of `disable_interrupts` on an acknowledging bus. -/
theorem disable_interrupts_allAck (a p : Nat) (s : DevState) :
    disable_interrupts allAck a s p =
      .ok (⟨{ s.chip with gpinten := s.chip.gpinten % 256 &&& (p % 256 ^^^ 255) }, 2⟩,
        [Tx.wr a [2], Tx.rd a 1,
         Tx.wr a [2, s.chip.gpinten % 256 &&& (p % 256 ^^^ 255)]]) := by
  rw [disable_interrupts, read_register_ok allAck a GPINTEN s rfl rfl]
  simp [write_register_ok, allAck, readReg, writeReg, IODIR, IPOL, GPINTEN, DEFVAL,
    INTCON, IOCON, GPPU, INTF, INTCAP, GPIOReg, OLAT, u8, mod256_mod256,
    mod256_and (xor255_lt (Nat.mod_lt _ (by norm_num)))]

/-- Evaluation of `read_register` when the select transaction is not
acknowledged. -/
theorem read_register_nackW (ack : Tx → Bool) (a reg : Nat) (s : DevState)
    (h : ack (Tx.wr a [u8 reg]) = false) :
    read_register ack a s reg =
      .error "MCP23008::read_register: Missing ACK for write\n" := by
  simp [read_register, i2cWrite, h]

/-- Evaluation of `read_register` when the select transaction is acknowledged
but the read transaction is not. -/
theorem read_register_nackR (ack : Tx → Bool) (a reg : Nat) (s : DevState)
    (h1 : ack (Tx.wr a [u8 reg]) = true) (h2 : ack (Tx.rd a 1) = false) :
    read_register ack a s reg =
      .error "MCP23008:read_register: Missing ACK for read\n" := by
  simp [read_register, i2cWrite, i2cRead, h1, h2]

/-- Evaluation of `write_register` when the transaction is not acknowledged. -/
theorem write_register_nack (ack : Tx → Bool) (a reg v : Nat) (s : DevState)
    (h : ack (Tx.wr a [u8 reg, u8 v]) = false) :
    write_register ack a s reg v =
      .error "MCP23008::write_register: Missing ACK for write\n" := by
  simp [write_register, i2cWrite, h]

/-- Evaluation of the pull-down branch of `internal_mode`: the assertion
fires before any bus traffic, for every acknowledgment environment. -/
theorem internal_mode_PullDown (ack : Tx → Bool) (a : Nat) (s : DevState)
    (pin : Pin) :
    internal_mode ack a s pin PinMode.PullDown =
      .error "MBED_ASSERT: pull != PullDown\n" := rfl

/-- Evaluation of the pull-none branch of `internal_mode` on an acknowledging
bus. -/
theorem internal_mode_PullNone_allAck (a : Nat) (s : DevState) (pin : Pin) :
    internal_mode allAck a s pin PinMode.PullNone =
      .ok (⟨{ s.chip with gppu := s.chip.gppu % 256 &&& (pinMask pin ^^^ 255) }, 6⟩,
        [Tx.wr a [6], Tx.rd a 1,
         Tx.wr a [6, s.chip.gppu % 256 &&& (pinMask pin ^^^ 255)]]) := by
  rw [internal_mode]
  simp only [reduceCtorEq, if_false, get_pullups,
    read_register_ok allAck a GPPU s rfl rfl]
  simp [set_pullups, write_register_ok, allAck, readReg, writeReg, IODIR, IPOL,
    GPINTEN, DEFVAL, INTCON, IOCON, GPPU, INTF, INTCAP, GPIOReg, OLAT, u8,
    mod256_mod256, mod256_and (xor255_lt (pinMask_lt pin))]

/-- Evaluation of the pull-up branch of `internal_mode` on an acknowledging
bus. -/
theorem internal_mode_PullUp_allAck (a : Nat) (s : DevState) (pin : Pin) :
    internal_mode allAck a s pin PinMode.PullUp =
      .ok (⟨{ s.chip with gppu := s.chip.gppu % 256 ||| pinMask pin }, 6⟩,
        [Tx.wr a [6], Tx.rd a 1,
         Tx.wr a [6, s.chip.gppu % 256 ||| pinMask pin]]) := by
  rw [internal_mode]
  simp only [reduceCtorEq, if_false, get_pullups,
    read_register_ok allAck a GPPU s rfl rfl]
  simp [set_pullups, write_register_ok, allAck, readReg, writeReg, IODIR, IPOL,
    GPINTEN, DEFVAL, INTCON, IOCON, GPPU, INTF, INTCAP, GPIOReg, OLAT, u8,
    mod256_mod256, mod256_or (Nat.mod_lt _ (by norm_num)) (pinMask_lt pin)]

/-- Evaluation of `internal_read` on an acknowledging bus: the GPIO register
(live pin state) masked with the handle's pin bit. -/
theorem internal_read_allAck (a : Nat) (s : DevState) (pin : Pin) :
    internal_read allAck a s pin =
      .ok ((s.chip.pins ^^^ s.chip.ipol) % 256 &&& pinMask pin,
        { s with ptr := 9 }, [Tx.wr a [9], Tx.rd a 1]) := by
  rw [internal_read, read_inputs, read_register_ok allAck a GPIOReg s rfl rfl]
  simp [readReg, IODIR, IPOL, GPINTEN, DEFVAL, INTCON, IOCON, GPPU, INTF,
    INTCAP, GPIOReg, OLAT, u8]

/-- Evaluation of the reset sequence on an acknowledging bus: 0xFF to the
direction register first, then one separate write transaction clearing each
register from 0x01 through 0x0A.  The interrupt-status registers and the
physical pin levels are untouched (writes to them are ignored by the chip). -/
theorem reset_allAck (a : Nat) (s : DevState) :
    reset allAck a s =
      .ok (⟨{ s.chip with iodir := 255, ipol := 0, gpinten := 0, defval := 0,
                          intcon := 0, iocon := 0, gppu := 0, olat := 0 }, 10⟩,
        [Tx.wr a [0, 255], Tx.wr a [1, 0], Tx.wr a [2, 0], Tx.wr a [3, 0],
         Tx.wr a [4, 0], Tx.wr a [5, 0], Tx.wr a [6, 0], Tx.wr a [7, 0],
         Tx.wr a [8, 0], Tx.wr a [9, 0], Tx.wr a [10, 0]]) := rfl

/-- Evaluation of the constructor for a valid strap on an acknowledging bus:
the device address is `0x40 | (strap << 1)` and the reset sequence runs. -/
theorem MCP23008mk_allAck (addr : Nat) (freq : Frequency) (s : DevState)
    (h : addr ≤ 7) :
    MCP23008mk allAck addr freq s =
      .ok (MCP23008_ADDRESS ||| (addr <<< 1),
        ⟨{ s.chip with iodir := 255, ipol := 0, gpinten := 0, defval := 0,
                       intcon := 0, iocon := 0, gppu := 0, olat := 0 }, 10⟩,
        (let a := MCP23008_ADDRESS ||| (addr <<< 1);
         [Tx.wr a [0, 255], Tx.wr a [1, 0], Tx.wr a [2, 0], Tx.wr a [3, 0],
          Tx.wr a [4, 0], Tx.wr a [5, 0], Tx.wr a [6, 0], Tx.wr a [7, 0],
          Tx.wr a [8, 0], Tx.wr a [9, 0], Tx.wr a [10, 0]])) := by
  interval_cases addr <;> rfl

/-- Evaluation of the constructor for an out-of-range strap: the fatal
configuration error fires before any bus traffic, in every acknowledgment
environment. -/
theorem MCP23008mk_err (ack : Tx → Bool) (addr : Nat) (freq : Frequency)
    (s : DevState) (h7 : 7 < addr) (h256 : addr < 256) :
    MCP23008mk ack addr freq s =
      .error "MCP23008::MCP23008: address is out of range, must be <= 7\n" := by
  simp [MCP23008mk, u8_eq_of_lt h256, h7]

/-- C1: for every 8-bit value v, `write_outputs(v)` followed by
`read_outputs()` returns exactly v, even though `write_outputs` writes the
GPIO register (0x09) and `read_outputs` reads the OLAT register (0x0A); the
round trip holds for every starting device state, in particular for every
physical pin level (`s.chip.pins` is universally quantified). -/
theorem C1_write_read_outputs_roundtrip (a v : Nat) (s : DevState)
    (hv : v < 256) (s1 : DevState) (t1 : List Tx)
    (h1 : write_outputs allAck a s v = .ok (s1, t1))
    (v2 : Nat) (s2 : DevState) (t2 : List Tx)
    (h2 : read_outputs allAck a s1 = .ok (v2, s2, t2)) :
    v2 = v ∧ t1 = [Tx.wr a [GPIOReg, v]] ∧ t2 = [Tx.wr a [OLAT], Tx.rd a 1] := by
  rw [write_outputs, write_register_ok allAck a GPIOReg v s rfl] at h1
  simp only [Except.ok.injEq, Prod.mk.injEq] at h1
  obtain ⟨hs1, ht1⟩ := h1
  subst hs1
  subst ht1
  rw [read_outputs, read_register_ok allAck a OLAT _ rfl rfl] at h2
  simp only [Except.ok.injEq, Prod.mk.injEq] at h2
  obtain ⟨hv2, hs2, ht2⟩ := h2
  refine ⟨?_, ?_, ?_⟩
  · rw [← hv2]
    simp [readReg, writeReg, GPIOReg, OLAT, IODIR, IPOL, GPINTEN, DEFVAL, INTCON,
      IOCON, GPPU, INTF, INTCAP, u8, mod256_mod256, Nat.mod_eq_of_lt hv]
  · simp [GPIOReg, u8, Nat.mod_eq_of_lt hv]
  · rw [← ht2]
    simp [OLAT, u8]

/-- Witness for C1 at v = 171 on a fresh device at address 0x40. -/
theorem C1_write_read_outputs_roundtrip_witness :
    (171 : Nat) < 256 ∧
    ((171 : Nat) = 171 ∧
     [Tx.wr 64 [9, 171]] = [Tx.wr 64 [GPIOReg, 171]] ∧
     [Tx.wr 64 [10], Tx.rd 64 1] = [Tx.wr 64 [OLAT], Tx.rd 64 1]) :=
  ⟨by norm_num,
   C1_write_read_outputs_roundtrip 64 171 ⟨⟨0, 0, 0, 0, 0, 0, 0, 0, 0, 0, 0⟩, 0⟩
     (by norm_num) ⟨⟨0, 0, 0, 0, 0, 0, 0, 0, 0, 171, 0⟩, 9⟩ [Tx.wr 64 [9, 171]]
     rfl 171 ⟨⟨0, 0, 0, 0, 0, 0, 0, 0, 0, 171, 0⟩, 10⟩
     [Tx.wr 64 [10], Tx.rd 64 1] rfl⟩

/-- C3: for every address strap in [0,7] the constructor computes the device
address `0x40 | (strap << 1)` and succeeds; for every 8-bit strap above 7 it
fails with the fatal configuration error before any bus traffic (in every
acknowledgment environment), so construction does not proceed. -/
theorem C3_constructor_address (strap : Nat) (freq : Frequency) (s : DevState) :
    (strap ≤ 7 →
      ∃ s1 t1, MCP23008mk allAck strap freq s =
        .ok (MCP23008_ADDRESS ||| (strap <<< 1), s1, t1)) ∧
    (7 < strap → strap < 256 → ∀ ack, MCP23008mk ack strap freq s =
      .error "MCP23008::MCP23008: address is out of range, must be <= 7\n") := by
  constructor
  · intro h
    exact ⟨_, _, MCP23008mk_allAck strap freq s h⟩
  · intro h7 h256 ack
    exact MCP23008mk_err ack strap freq s h7 h256

/-- Witness for C3: strap 3 gives device address 0x46, and strap 9 fails. -/
theorem C3_constructor_address_witness :
    ((3 : Nat) ≤ 7 ∧
     ∃ s1 t1, MCP23008mk allAck 3 Frequency.Frequency_400KHz
        ⟨⟨0, 0, 0, 0, 0, 0, 0, 0, 0, 0, 0⟩, 0⟩ = .ok (0x46, s1, t1)) ∧
    (7 < (9 : Nat) ∧ (9 : Nat) < 256 ∧
     MCP23008mk allAck 9 Frequency.Frequency_100KHz
        ⟨⟨0, 0, 0, 0, 0, 0, 0, 0, 0, 0, 0⟩, 0⟩ =
       .error "MCP23008::MCP23008: address is out of range, must be <= 7\n") :=
  ⟨⟨by norm_num,
    (C3_constructor_address 3 Frequency.Frequency_400KHz
      ⟨⟨0, 0, 0, 0, 0, 0, 0, 0, 0, 0, 0⟩, 0⟩).1 (by norm_num)⟩,
   by norm_num,
   by norm_num,
   (C3_constructor_address 9 Frequency.Frequency_100KHz
      ⟨⟨0, 0, 0, 0, 0, 0, 0, 0, 0, 0, 0⟩, 0⟩).2 (by norm_num) (by norm_num) allAck⟩

/-- C4 (amended): after construction with any valid strap and frequency, the
direction register holds 0xFF and the writable registers polarity (0x01)
through pull-up (0x06) and the output latch (0x0A) hold zero; the read-only
interrupt-flag, interrupt-capture and input-state registers are unaffected
by the written zeros (interrupt status and physical pin levels are
preserved).  The reset sequence writes 0xFF to the direction register first
and then writes zero to each register from 0x01 through 0x0A, each in a
separate write transaction. -/
theorem C4_construction_reset_state (strap : Nat) (freq : Frequency)
    (s : DevState) (h : strap ≤ 7) (addr : Nat) (s1 : DevState) (t1 : List Tx)
    (hc : MCP23008mk allAck strap freq s = .ok (addr, s1, t1)) :
    s1.chip.iodir = 255 ∧ s1.chip.ipol = 0 ∧ s1.chip.gpinten = 0 ∧
    s1.chip.defval = 0 ∧ s1.chip.intcon = 0 ∧ s1.chip.iocon = 0 ∧
    s1.chip.gppu = 0 ∧ s1.chip.olat = 0 ∧ s1.chip.intf = s.chip.intf ∧
    s1.chip.intcap = s.chip.intcap ∧ s1.chip.pins = s.chip.pins ∧
    t1 = [Tx.wr addr [IODIR, 0xFF], Tx.wr addr [IPOL, 0],
      Tx.wr addr [GPINTEN, 0], Tx.wr addr [DEFVAL, 0], Tx.wr addr [INTCON, 0],
      Tx.wr addr [IOCON, 0], Tx.wr addr [GPPU, 0], Tx.wr addr [INTF, 0],
      Tx.wr addr [INTCAP, 0], Tx.wr addr [GPIOReg, 0], Tx.wr addr [OLAT, 0]] := by
  rw [MCP23008mk_allAck strap freq s h] at hc
  simp only [Except.ok.injEq, Prod.mk.injEq] at hc
  obtain ⟨ha, hs, ht⟩ := hc
  subst ha
  subst hs
  subst ht
  norm_num [IODIR, IPOL, GPINTEN, DEFVAL, INTCON, IOCON, GPPU, INTF, INTCAP,
    GPIOReg, OLAT]

/-- Witness for C4 (amended) at strap 5 on a warm device state: interrupt
status (8, 9) and pin levels (11) survive the reset, everything else is
reset. -/
theorem C4_construction_reset_state_witness :
    (5 : Nat) ≤ 7 ∧
    ((255 : Nat) = 255 ∧ (0 : Nat) = 0 ∧ (0 : Nat) = 0 ∧ (0 : Nat) = 0 ∧
     (0 : Nat) = 0 ∧ (0 : Nat) = 0 ∧ (0 : Nat) = 0 ∧ (0 : Nat) = 0 ∧
     (8 : Nat) = 8 ∧ (9 : Nat) = 9 ∧ (11 : Nat) = 11 ∧
     ([Tx.wr 74 [0, 255], Tx.wr 74 [1, 0], Tx.wr 74 [2, 0], Tx.wr 74 [3, 0],
       Tx.wr 74 [4, 0], Tx.wr 74 [5, 0], Tx.wr 74 [6, 0], Tx.wr 74 [7, 0],
       Tx.wr 74 [8, 0], Tx.wr 74 [9, 0], Tx.wr 74 [10, 0]] =
      [Tx.wr 74 [IODIR, 0xFF], Tx.wr 74 [IPOL, 0], Tx.wr 74 [GPINTEN, 0],
       Tx.wr 74 [DEFVAL, 0], Tx.wr 74 [INTCON, 0], Tx.wr 74 [IOCON, 0],
       Tx.wr 74 [GPPU, 0], Tx.wr 74 [INTF, 0], Tx.wr 74 [INTCAP, 0],
       Tx.wr 74 [GPIOReg, 0], Tx.wr 74 [OLAT, 0]])) :=
  ⟨by norm_num,
   C4_construction_reset_state 5 Frequency.Frequency_100KHz
     ⟨⟨1, 2, 3, 4, 5, 6, 7, 8, 9, 10, 11⟩, 0⟩ (by norm_num) 74
     ⟨⟨255, 0, 0, 0, 0, 0, 0, 8, 9, 0, 11⟩, 10⟩
     [Tx.wr 74 [0, 255], Tx.wr 74 [1, 0], Tx.wr 74 [2, 0], Tx.wr 74 [3, 0],
      Tx.wr 74 [4, 0], Tx.wr 74 [5, 0], Tx.wr 74 [6, 0], Tx.wr 74 [7, 0],
      Tx.wr 74 [8, 0], Tx.wr 74 [9, 0], Tx.wr 74 [10, 0]] rfl⟩

/-- Counterexample to C4 as stated: register 0x09 lies in the claimed range
0x01..0x0A, yet after construction (strap 0, fresh chip whose pads are
externally driven high) reading it through the driver returns 255, not 0 —
the input-state register reads live pin levels, which the reset writes do
not determine. -/
theorem C4_counterexample :
    ∃ s1 t1 v s2 t2,
      MCP23008mk allAck 0 Frequency.Frequency_100KHz
          ⟨⟨0, 0, 0, 0, 0, 0, 0, 0, 0, 0, 255⟩, 0⟩ = .ok (64, s1, t1) ∧
      read_register allAck 64 s1 GPIOReg = .ok (v, s2, t2) ∧
      0x01 ≤ GPIOReg ∧ GPIOReg ≤ 0x0A ∧ v ≠ 0 := by
  refine ⟨_, _, _, _, _, rfl, rfl, by norm_num [GPIOReg], by norm_num [GPIOReg], ?_⟩
  decide

/-- C5: direction changes are additive read-modify-write operations.
Two successive `set_output_pins` calls clear the direction bits of the union
of both masks (not just the second), from every starting state; and
`set_output_pins(m)` followed by `set_input_pins(m)` leaves the direction
bits of `m` set (the more recent call wins on overlapping bits). -/
theorem C5_direction_rmw_additive (a pa pb m : Nat) (s u : DevState)
    (s1 s2 u1 u2 : DevState) (t1 t2 w1 w2 : List Tx)
    (h1 : set_output_pins allAck a s pa = .ok (s1, t1))
    (h2 : set_output_pins allAck a s1 pb = .ok (s2, t2))
    (h3 : set_output_pins allAck a u m = .ok (u1, w1))
    (h4 : set_input_pins allAck a u1 m = .ok (u2, w2)) :
    s2.chip.iodir &&& (u8 pa ||| u8 pb) = 0 ∧
    u2.chip.iodir &&& u8 m = u8 m := by
  rw [set_output_pins_allAck, Except.ok.injEq, Prod.mk.injEq] at h1 h2 h3
  rw [set_input_pins_allAck, Except.ok.injEq, Prod.mk.injEq] at h4
  obtain ⟨hs1, ht1⟩ := h1
  obtain ⟨hs2, ht2⟩ := h2
  obtain ⟨hs3, ht3⟩ := h3
  obtain ⟨hs4, ht4⟩ := h4
  subst hs1
  subst hs2
  subst hs3
  subst hs4
  have hpa : pa % 256 < 256 := Nat.mod_lt _ (by norm_num)
  have hpb : pb % 256 < 256 := Nat.mod_lt _ (by norm_num)
  constructor
  · show ((s.chip.iodir % 256 &&& (pa % 256 ^^^ 255)) % 256 &&&
        (pb % 256 ^^^ 255)) &&& (u8 pa ||| u8 pb) = 0
    rw [mod256_and (xor255_lt hpa)]
    exact and_not_and_not_and_or _ _ _ hpa hpb
  · show ((u.chip.iodir % 256 &&& (m % 256 ^^^ 255)) % 256 ||| m % 256) &&&
        u8 m = u8 m
    exact or_and_self _ _

/-- Witness for C5 at masks 0x01, 0x02, 0x0C on concrete starting states:
starting from direction 0xF0, clearing 0x01 then 0x02 leaves no bit of
0x03 set; starting from 0xFF, output then input on 0x0C leaves 0x0C set. -/
theorem C5_direction_rmw_additive_witness :
    (240 : Nat) &&& (u8 1 ||| u8 2) = 0 ∧ (255 : Nat) &&& u8 12 = u8 12 :=
  C5_direction_rmw_additive 64 1 2 12
    ⟨⟨240, 0, 0, 0, 0, 0, 0, 0, 0, 0, 0⟩, 0⟩
    ⟨⟨255, 0, 0, 0, 0, 0, 0, 0, 0, 0, 0⟩, 0⟩ _ _ _ _ _ _ _ _
    (set_output_pins_allAck _ _ _) (set_output_pins_allAck _ _ _)
    (set_output_pins_allAck _ _ _) (set_input_pins_allAck _ _ _)

/-- C6: `interrupt_on_changes(p)` followed immediately by
`disable_interrupts(p)` leaves the GPINTEN bits for `p` cleared; the INTCON
bits for `p` are cleared and stay cleared; and in both registers the bits
outside `p` keep their prior (byte) values. -/
theorem C6_interrupt_enable_disable (a p : Nat) (s : DevState)
    (s1 s2 : DevState) (t1 t2 : List Tx)
    (h1 : interrupt_on_changes allAck a s p = .ok (s1, t1))
    (h2 : disable_interrupts allAck a s1 p = .ok (s2, t2)) :
    s2.chip.gpinten &&& u8 p = 0 ∧
    s2.chip.intcon &&& u8 p = 0 ∧
    s2.chip.gpinten &&& (u8 p ^^^ 255) = u8 s.chip.gpinten &&& (u8 p ^^^ 255) ∧
    s2.chip.intcon &&& (u8 p ^^^ 255) = u8 s.chip.intcon &&& (u8 p ^^^ 255) := by
  rw [interrupt_on_changes_allAck, Except.ok.injEq, Prod.mk.injEq] at h1
  rw [disable_interrupts_allAck, Except.ok.injEq, Prod.mk.injEq] at h2
  obtain ⟨hs1, ht1⟩ := h1
  obtain ⟨hs2, ht2⟩ := h2
  subst hs1
  subst hs2
  have hp : p % 256 < 256 := Nat.mod_lt _ (by norm_num)
  have hg : s.chip.gpinten % 256 < 256 := Nat.mod_lt _ (by norm_num)
  refine ⟨?_, ?_, ?_, ?_⟩
  · show ((s.chip.gpinten % 256 ||| p % 256) % 256) &&& (p % 256 ^^^ 255) &&&
      u8 p = 0
    rw [mod256_or hg hp]
    exact and_not_and_self _ _ hp
  · show (s.chip.intcon % 256 &&& (p % 256 ^^^ 255)) &&& u8 p = 0
    exact and_not_and_self _ _ hp
  · show ((s.chip.gpinten % 256 ||| p % 256) % 256) &&& (p % 256 ^^^ 255) &&&
      (u8 p ^^^ 255) = u8 s.chip.gpinten &&& (u8 p ^^^ 255)
    rw [mod256_or hg hp]
    exact or_and_not_and_not _ _ hp
  · show (s.chip.intcon % 256 &&& (p % 256 ^^^ 255)) &&& (u8 p ^^^ 255) =
      u8 s.chip.intcon &&& (u8 p ^^^ 255)
    exact and_and_self _ _

/-- Witness for C6 at mask 0x05 from a warm register state (GPINTEN 0xA1,
INTCON 0x0F): enable bits of the mask end cleared, control bits of the mask
end cleared, bits outside the mask survive in both registers. -/
theorem C6_interrupt_enable_disable_witness :
    (160 : Nat) &&& u8 5 = 0 ∧ (10 : Nat) &&& u8 5 = 0 ∧
    (160 : Nat) &&& (u8 5 ^^^ 255) = u8 161 &&& (u8 5 ^^^ 255) ∧
    (10 : Nat) &&& (u8 5 ^^^ 255) = u8 15 &&& (u8 5 ^^^ 255) :=
  C6_interrupt_enable_disable 64 5 ⟨⟨0, 0, 161, 0, 15, 0, 0, 0, 0, 0, 0⟩, 0⟩
    _ _ _ _ (interrupt_on_changes_allAck _ _ _) (disable_interrupts_allAck _ _ _)

/-- C7: for every pin handle, requesting pull-down in `mode()` fails with the
assertion-style fatal error in every bus environment, before the pull-up
register is touched; pull-none clears exactly the pin's pull-up bit and
pull-up sets exactly the pin's pull-up bit, by read-modify-write, with all
other pull-up bits unchanged. -/
theorem C7_mode_pull_semantics (a : Nat) (s : DevState) (pin : Pin) :
    (∀ ack, internal_mode ack a s pin PinMode.PullDown =
      .error "MBED_ASSERT: pull != PullDown\n") ∧
    (∀ s1 t1, internal_mode allAck a s pin PinMode.PullNone = .ok (s1, t1) →
      s1.chip.gppu &&& pinMask pin = 0 ∧
      s1.chip.gppu &&& (pinMask pin ^^^ 255) =
        u8 s.chip.gppu &&& (pinMask pin ^^^ 255)) ∧
    (∀ s1 t1, internal_mode allAck a s pin PinMode.PullUp = .ok (s1, t1) →
      s1.chip.gppu &&& pinMask pin = pinMask pin ∧
      s1.chip.gppu &&& (pinMask pin ^^^ 255) =
        u8 s.chip.gppu &&& (pinMask pin ^^^ 255)) := by
  refine ⟨fun ack => internal_mode_PullDown ack a s pin, ?_, ?_⟩
  · intro s1 t1 h
    rw [internal_mode_PullNone_allAck, Except.ok.injEq, Prod.mk.injEq] at h
    obtain ⟨hs1, ht1⟩ := h
    subst hs1
    refine ⟨?_, ?_⟩
    · show (s.chip.gppu % 256 &&& (pinMask pin ^^^ 255)) &&& pinMask pin = 0
      exact and_not_and_self _ _ (pinMask_lt pin)
    · show (s.chip.gppu % 256 &&& (pinMask pin ^^^ 255)) &&&
        (pinMask pin ^^^ 255) = u8 s.chip.gppu &&& (pinMask pin ^^^ 255)
      exact and_and_self _ _
  · intro s1 t1 h
    rw [internal_mode_PullUp_allAck, Except.ok.injEq, Prod.mk.injEq] at h
    obtain ⟨hs1, ht1⟩ := h
    subst hs1
    refine ⟨?_, ?_⟩
    · show (s.chip.gppu % 256 ||| pinMask pin) &&& pinMask pin = pinMask pin
      exact or_and_self _ _
    · show (s.chip.gppu % 256 ||| pinMask pin) &&& (pinMask pin ^^^ 255) =
        u8 s.chip.gppu &&& (pinMask pin ^^^ 255)
      exact or_and_not _ _ (pinMask_lt pin)

/-- Witness for C7 on pin GP4 with prior pull-ups 0x21: pull-down errors,
pull-none clears bit 4, pull-up sets bit 4, other bits survive. -/
theorem C7_mode_pull_semantics_witness :
    (internal_mode allAck 64 ⟨⟨0, 0, 0, 0, 0, 0, 33, 0, 0, 0, 0⟩, 0⟩ Pin.Pin_GP4
        PinMode.PullDown = .error "MBED_ASSERT: pull != PullDown\n") ∧
    ((33 : Nat) &&& (pinMask Pin.Pin_GP4 ^^^ 255) &&& pinMask Pin.Pin_GP4 = 0 ∧
     (33 : Nat) &&& (pinMask Pin.Pin_GP4 ^^^ 255) &&& (pinMask Pin.Pin_GP4 ^^^ 255) =
       u8 33 &&& (pinMask Pin.Pin_GP4 ^^^ 255)) ∧
    ((49 : Nat) &&& pinMask Pin.Pin_GP4 = pinMask Pin.Pin_GP4 ∧
     (49 : Nat) &&& (pinMask Pin.Pin_GP4 ^^^ 255) =
       u8 33 &&& (pinMask Pin.Pin_GP4 ^^^ 255)) :=
  ⟨(C7_mode_pull_semantics 64 ⟨⟨0, 0, 0, 0, 0, 0, 33, 0, 0, 0, 0⟩, 0⟩
      Pin.Pin_GP4).1 allAck,
   (C7_mode_pull_semantics 64 ⟨⟨0, 0, 0, 0, 0, 0, 33, 0, 0, 0, 0⟩, 0⟩
      Pin.Pin_GP4).2.1 _ _ (internal_mode_PullNone_allAck _ _ _),
   (C7_mode_pull_semantics 64 ⟨⟨0, 0, 0, 0, 0, 0, 33, 0, 0, 0, 0⟩, 0⟩
      Pin.Pin_GP4).2.2 _ _ (internal_mode_PullUp_allAck _ _ _)⟩

/-- C2 (evaluation of the code at the failing input): an Output handle on
GP0, freshly directed as output, commands logic high with `write(1)` — the
output latch duly holds 1 — yet `ExpandedOutput::read()` returns 0, because
the code routes the read through `read_inputs()` (the GPIO register, live
pin state, here externally loaded low) instead of the output-latch path the
spec prescribes; the spec-faithful latch path would return the commanded
bit. -/
theorem C2_output_read_uses_gpio_not_latch :
    ∃ s1 t1 s2 t2,
      internal_output allAck 64 ⟨⟨255, 0, 0, 0, 0, 0, 0, 0, 0, 0, 0⟩, 0⟩
          Pin.Pin_GP0 = .ok (s1, t1) ∧
      ExpandedOutput_write allAck 64 s1 Pin.Pin_GP0 1 = .ok (s2, t2) ∧
      s2.chip.olat = 1 ∧
      (∃ s3 t3, ExpandedOutput_read_specModel allAck 64 s2 Pin.Pin_GP0 =
        .ok (1, s3, t3)) ∧
      (∃ s4 t4, ExpandedOutput_read allAck 64 s2 Pin.Pin_GP0 =
        .ok (0, s4, t4)) := by
  exact ⟨_, _, _, _, rfl, rfl, rfl, ⟨_, _, rfl⟩, ⟨_, _, rfl⟩⟩

/-- Either 0 or the full single bit survives an AND with a power of two. -/
theorem and_single_bit (x k : Nat) : x &&& 2 ^ k = 0 ∨ x &&& 2 ^ k = 2 ^ k := by
  rw [Nat.and_two_pow]
  cases x.testBit k <;> simp

/-- A nonzero AND with a single bit above bit 0 exceeds 1. -/
theorem masked_pos_gt_one (x m k : Nat) (hm : m = 2 ^ k) (h1 : 1 < m)
    (h : x &&& m ≠ 0) : 1 < x &&& m := by
  subst hm
  rcases and_single_bit x k with h0 | hk
  · exact absurd h0 h
  · rw [hk]
    exact h1

/-- C10: a pin handle's `read()` returns `read_inputs() & pin`, which is
either 0 or the pin's mask value itself — not normalized to 0/1 — so on any
pin other than GP0 a logic-high read yields a value greater than 1.  The
hypothesis `p ≠ Pin_All` is the spec's handle-identity invariant (a single
handle is bound to exactly one of the 8 bit positions; the all-bits mask is
only for bulk register calls). -/
theorem C10_handle_read_masked_value (a : Nat) (s : DevState) (p : Pin)
    (hp : p ≠ Pin.Pin_All) (r : Nat) (s1 : DevState) (t1 : List Tx)
    (h : internal_read allAck a s p = .ok (r, s1, t1))
    (v : Nat) (s2 : DevState) (t2 : List Tx)
    (hv : read_inputs allAck a s = .ok (v, s2, t2)) :
    r = v &&& pinMask p ∧ (r = 0 ∨ r = pinMask p) ∧
    (p ≠ Pin.Pin_GP0 → r ≠ 0 → 1 < r) := by
  rw [internal_read_allAck, Except.ok.injEq, Prod.mk.injEq] at h
  obtain ⟨hr, hs1, ht1⟩ := h
  subst hr
  rw [read_inputs, read_register_ok allAck a GPIOReg s rfl rfl,
    Except.ok.injEq, Prod.mk.injEq] at hv
  obtain ⟨hvv, hs2, ht2⟩ := hv
  rw [← hvv]
  have hX : readReg s.chip (u8 GPIOReg) = (s.chip.pins ^^^ s.chip.ipol) % 256 := by
    simp [readReg, IODIR, IPOL, GPINTEN, DEFVAL, INTCON, IOCON, GPPU, INTF,
      INTCAP, GPIOReg, OLAT, u8]
  rw [hX]
  refine ⟨rfl, ?_, ?_⟩
  · cases p
    case Pin_All => exact absurd rfl hp
    case Pin_GP0 => simpa [pinMask] using and_single_bit _ 0
    case Pin_GP1 => simpa [pinMask] using and_single_bit _ 1
    case Pin_GP2 => simpa [pinMask] using and_single_bit _ 2
    case Pin_GP3 => simpa [pinMask] using and_single_bit _ 3
    case Pin_GP4 => simpa [pinMask] using and_single_bit _ 4
    case Pin_GP5 => simpa [pinMask] using and_single_bit _ 5
    case Pin_GP6 => simpa [pinMask] using and_single_bit _ 6
    case Pin_GP7 => simpa [pinMask] using and_single_bit _ 7
  · intro hne hr0
    cases p
    case Pin_All => exact absurd rfl hp
    case Pin_GP0 => exact absurd rfl hne
    case Pin_GP1 =>
      simp only [pinMask] at hr0 ⊢
      exact masked_pos_gt_one _ _ 1 (by norm_num) (by norm_num) hr0
    case Pin_GP2 =>
      simp only [pinMask] at hr0 ⊢
      exact masked_pos_gt_one _ _ 2 (by norm_num) (by norm_num) hr0
    case Pin_GP3 =>
      simp only [pinMask] at hr0 ⊢
      exact masked_pos_gt_one _ _ 3 (by norm_num) (by norm_num) hr0
    case Pin_GP4 =>
      simp only [pinMask] at hr0 ⊢
      exact masked_pos_gt_one _ _ 4 (by norm_num) (by norm_num) hr0
    case Pin_GP5 =>
      simp only [pinMask] at hr0 ⊢
      exact masked_pos_gt_one _ _ 5 (by norm_num) (by norm_num) hr0
    case Pin_GP6 =>
      simp only [pinMask] at hr0 ⊢
      exact masked_pos_gt_one _ _ 6 (by norm_num) (by norm_num) hr0
    case Pin_GP7 =>
      simp only [pinMask] at hr0 ⊢
      exact masked_pos_gt_one _ _ 7 (by norm_num) (by norm_num) hr0

/-- Witness for C10 on pin GP5 with pads reading 0xFF: the read returns 32
(the mask value, greater than 1), not a normalized 1. -/
theorem C10_handle_read_masked_value_witness :
    Pin.Pin_GP5 ≠ Pin.Pin_All ∧
    ((32 : Nat) = 255 &&& pinMask Pin.Pin_GP5 ∧
     ((32 : Nat) = 0 ∨ (32 : Nat) = pinMask Pin.Pin_GP5) ∧
     (Pin.Pin_GP5 ≠ Pin.Pin_GP0 → (32 : Nat) ≠ 0 → 1 < (32 : Nat))) :=
  ⟨by decide,
   C10_handle_read_masked_value 64 ⟨⟨0, 0, 0, 0, 0, 0, 0, 0, 0, 0, 255⟩, 0⟩
     Pin.Pin_GP5 (by decide) 32 _ _ rfl 255 _ _ rfl⟩

/-- The interleavings of two single-step threads are the two orders. -/
theorem merges_singleton (x y : StepA) : merges [x] [y] = [[x, y], [y, x]] := rfl

/-- Bytewise accumulation of two OR-masks composes to the OR of both. -/
theorem u8_or_or (g x y : Nat) :
    u8 (u8 (u8 (u8 g ||| x)) ||| y) = u8 (g ||| x ||| y) := by
  apply Nat.eq_of_testBit_eq
  intro i
  simp only [u8_testBit, Nat.testBit_or]
  by_cases h : i < 8
  · simp [decide_eq_true h, Bool.or_assoc]
  · simp [h]


/-- C8 (amended, positive half): `internal_mode` holds the Expander's lock
across its whole pull-up read-modify-write, so it is one atomic unit in the
interleaving model; two concurrent `mode(PullUp)` calls on any pins from any
chip state compose without a lost update, in both orders.  For
`set_input_pins`/`set_output_pins` the lock only guards the two bus
transactions inside `read_register` (and `write_register` does not take it
at all), so their read-modify-write is two atomic units and concurrent calls
can lose an update — see the counterexample. -/
theorem C8_mode_rmw_lock_atomic (c : Chip) (p q : Pin) (l : List StepA)
    (hl : l ∈ merges (threadMode true p PinMode.PullUp)
      (threadMode false q PinMode.PullUp)) :
    (runSteps l (c, 0, 0)).1.gppu = u8 (c.gppu ||| pinMask p ||| pinMask q) := by
  rw [threadMode, threadMode, merges_singleton] at hl
  simp only [List.mem_cons, List.not_mem_nil, or_false] at hl
  rcases hl with h | h <;> subst h
  · simp only [runSteps, List.foldl, execStep, execMode, readReg, writeReg,
      GPPU, IODIR, IPOL, GPINTEN, DEFVAL, INTCON, IOCON, INTF, INTCAP, GPIOReg,
      OLAT, reduceCtorEq, if_false]
    norm_num
    exact u8_or_or c.gppu (pinMask p) (pinMask q)
  · simp only [runSteps, List.foldl, execStep, execMode, readReg, writeReg,
      GPPU, IODIR, IPOL, GPINTEN, DEFVAL, INTCON, IOCON, INTF, INTCAP, GPIOReg,
      OLAT, reduceCtorEq, if_false]
    norm_num
    rw [u8_or_or c.gppu (pinMask q) (pinMask p), Nat.or_assoc, Nat.or_assoc,
      Nat.or_comm (pinMask q) (pinMask p)]

/-- Witness for the amended C8 on pins GP0 and GP1 from the all-zero chip. -/
theorem C8_mode_rmw_lock_atomic_witness :
    ([StepA.modeRMW true Pin.Pin_GP0 PinMode.PullUp,
      StepA.modeRMW false Pin.Pin_GP1 PinMode.PullUp] ∈
        merges (threadMode true Pin.Pin_GP0 PinMode.PullUp)
          (threadMode false Pin.Pin_GP1 PinMode.PullUp)) ∧
    (3 : Nat) = u8 ((0 : Nat) ||| pinMask Pin.Pin_GP0 ||| pinMask Pin.Pin_GP1) :=
  ⟨by decide,
   C8_mode_rmw_lock_atomic ⟨0, 0, 0, 0, 0, 0, 0, 0, 0, 0, 0⟩ Pin.Pin_GP0
     Pin.Pin_GP1
     [StepA.modeRMW true Pin.Pin_GP0 PinMode.PullUp,
      StepA.modeRMW false Pin.Pin_GP1 PinMode.PullUp] (by decide)⟩

/-- Counterexample to C8 as stated: `set_input_pins` does NOT hold the lock
across its read-modify-write (the lock lives inside `read_register` only,
and `write_register` does not take it), so there is an interleaving of
`set_input_pins(0x01)` and `set_input_pins(0x02)` — read A, read B, write B,
write A — that loses an update: the final direction register is 0x01, not
the 0x03 that every interleaving would yield if the claimed end-to-end lock
guarding held. -/
theorem C8_counterexample :
    ¬ (∀ l ∈ merges (threadSetInputPins true 1) (threadSetInputPins false 2),
        (runSteps l (⟨0, 0, 0, 0, 0, 0, 0, 0, 0, 0, 0⟩, 0, 0)).1.iodir =
          (0 : Nat) ||| u8 1 ||| u8 2) := by
  decide

/-- C9: `read_register` issues a single-byte select-register write followed
by a one-byte read on the same device address and fails fatally
(unrecoverably, with no retry) if either transaction is not acknowledged; on
success it returns exactly the byte the device supplies at the selected
register.  `write_register` issues one two-byte transaction (register
address then value) and fails fatally on missing acknowledgment. -/
theorem C9_register_protocol (ack : Tx → Bool) (a reg v : Nat) (s : DevState) :
    (ack (Tx.wr a [u8 reg]) = false →
      read_register ack a s reg =
        .error "MCP23008::read_register: Missing ACK for write\n") ∧
    (ack (Tx.wr a [u8 reg]) = true → ack (Tx.rd a 1) = false →
      read_register ack a s reg =
        .error "MCP23008:read_register: Missing ACK for read\n") ∧
    (ack (Tx.wr a [u8 reg]) = true → ack (Tx.rd a 1) = true →
      read_register ack a s reg =
        .ok (devRead { s with ptr := u8 reg }, { s with ptr := u8 reg },
          [Tx.wr a [u8 reg], Tx.rd a 1])) ∧
    (ack (Tx.wr a [u8 reg, u8 v]) = false →
      write_register ack a s reg v =
        .error "MCP23008::write_register: Missing ACK for write\n") ∧
    (ack (Tx.wr a [u8 reg, u8 v]) = true →
      write_register ack a s reg v =
        .ok (devProcessWrite s [u8 reg, u8 v], [Tx.wr a [u8 reg, u8 v]])) := by
  refine ⟨?_, ?_, ?_, ?_, ?_⟩
  · intro h1
    exact read_register_nackW ack a reg s h1
  · intro h1 h2
    exact read_register_nackR ack a reg s h1 h2
  · intro h1 h2
    rw [read_register_ok ack a reg s h1 h2]
    simp [devRead]
  · intro h1
    exact write_register_nack ack a reg v s h1
  · intro h1
    rw [write_register_ok ack a reg v s h1]
    simp [devProcessWrite, u8_u8]

/-- Witness for C9 at register 4 (INTCON holding 5) on device address 0x40:
a dead bus fails the select write, a read-refusing bus fails the read, a
healthy bus returns the selected register's byte, and the write cases
likewise. -/
theorem C9_register_protocol_witness :
    (read_register (fun _ => false) 64 ⟨⟨0, 0, 0, 0, 5, 0, 0, 0, 0, 0, 0⟩, 0⟩ 4 =
      .error "MCP23008::read_register: Missing ACK for write\n") ∧
    (read_register (fun t => match t with | Tx.rd _ _ => false | _ => true) 64
        ⟨⟨0, 0, 0, 0, 5, 0, 0, 0, 0, 0, 0⟩, 0⟩ 4 =
      .error "MCP23008:read_register: Missing ACK for read\n") ∧
    (read_register allAck 64 ⟨⟨0, 0, 0, 0, 5, 0, 0, 0, 0, 0, 0⟩, 0⟩ 4 =
      .ok (5, ⟨⟨0, 0, 0, 0, 5, 0, 0, 0, 0, 0, 0⟩, 4⟩,
        [Tx.wr 64 [4], Tx.rd 64 1])) ∧
    (write_register (fun _ => false) 64 ⟨⟨0, 0, 0, 0, 5, 0, 0, 0, 0, 0, 0⟩, 0⟩ 4 7 =
      .error "MCP23008::write_register: Missing ACK for write\n") ∧
    (write_register allAck 64 ⟨⟨0, 0, 0, 0, 5, 0, 0, 0, 0, 0, 0⟩, 0⟩ 4 7 =
      .ok (⟨⟨0, 0, 0, 0, 7, 0, 0, 0, 0, 0, 0⟩, 4⟩, [Tx.wr 64 [4, 7]])) :=
  ⟨(C9_register_protocol (fun _ => false) 64 4 7
      ⟨⟨0, 0, 0, 0, 5, 0, 0, 0, 0, 0, 0⟩, 0⟩).1 rfl,
   (C9_register_protocol (fun t => match t with | Tx.rd _ _ => false | _ => true)
      64 4 7 ⟨⟨0, 0, 0, 0, 5, 0, 0, 0, 0, 0, 0⟩, 0⟩).2.1 rfl rfl,
   (C9_register_protocol allAck 64 4 7
      ⟨⟨0, 0, 0, 0, 5, 0, 0, 0, 0, 0, 0⟩, 0⟩).2.2.1 rfl rfl,
   (C9_register_protocol (fun _ => false) 64 4 7
      ⟨⟨0, 0, 0, 0, 5, 0, 0, 0, 0, 0, 0⟩, 0⟩).2.2.2.1 rfl,
   (C9_register_protocol allAck 64 4 7
      ⟨⟨0, 0, 0, 0, 5, 0, 0, 0, 0, 0, 0⟩, 0⟩).2.2.2.2 rfl⟩
